import Mathlib

/-!
Shallow embedding of the AI-interview backend (src/main.py) for checking its
natural-language specification.

The repository is a FastAPI service.  The parts relevant to the claims are:

* the pure text sanitizer clean_text_for_tts (main.py lines 37-40);
* the interview state machine InterviewSession.get_next_response
  (main.py lines 99-175);
* the three-layer TTS fallback chain generate_audio_stream
  (main.py lines 194-255);
* the upload_context endpoint (main.py lines 263-279);
* the websocket_endpoint loop and its session-registry bookkeeping
  (main.py lines 281-332).

External collaborators (the Gemini LLM chat, the EdgeTTS and gTTS backends,
the pdfplumber extractor, the websocket transport) are modelled as oracle
parameters: a function from prompt to reply for the LLM, per-call outcome
values for the TTS backends and the PDF extractor, and an explicit event list
for the transport.  Exceptions in the Python code are modelled with Except,
and the await points are irrelevant to the claims (one session is driven by
one connection), so the async functions are embedded as pure functions.
-/

/-- Characters removed by the Python str.strip() default (the ASCII whitespace
subset; the inputs of interest here are ASCII). -/
def isPyWhitespace (c : Char) : Bool :=
  c == ' ' || c == '\t' || c == '\n' || c == '\r' || c == '\x0b' || c == '\x0c'

/-- Python str.strip(): drop leading and trailing whitespace characters. -/
def pyStrip (l : List Char) : List Char :=
  List.rdropWhile isPyWhitespace (List.dropWhile isPyWhitespace l)

/-- main.py lines 37-40: re.sub removes every literal asterisk, then every
literal hash sign, then .strip() trims the ends. -/
def clean_text_for_tts (text : String) : String :=
  String.mk (pyStrip ((text.data.filter (fun c => c != '*')).filter (fun c => c != '#')))

/-- Python str.lower() on the ASCII fragment. -/
def pyLower (s : String) : String :=
  String.mk (s.data.map Char.toLower)

/-- Helper for the Python substring test: does the first list occur at the
head of the second one. -/
def startsWithChars : List Char → List Char → Bool
  | [], _ => true
  | _ :: _, [] => false
  | a :: as, b :: bs => a == b && startsWithChars as bs

/-- Helper for the Python substring test: does the first list occur inside
the second one. -/
def hasSubChars (sub : List Char) : List Char → Bool
  | [] => sub.isEmpty
  | b :: bs => startsWithChars sub (b :: bs) || hasSubChars sub bs

/-- Python `sub in s` on strings. -/
def pyContains (sub s : String) : Bool :=
  hasSubChars sub.data s.data

/-- Python truthiness of an optional string: None and the empty string are
falsy. -/
def isFalsy : Option String → Bool
  | none => true
  | some s => s == ""

/-- The f-string interpolation of an optional value: Python prints None as
the four letters None. -/
def pyShowOpt : Option String → String
  | none => "None"
  | some t => t

/-- The mutable per-session fields of InterviewSession that the claims are
about (main.py lines 100-105).  The persona, the LLM client and the system
instruction are modelled as parameters of get_next_response. -/
structure SessionState where
  resume_text : String
  jd_text : String
  transcript : List String
  question_count : Nat
  max_questions : Nat
deriving Repr, DecidableEq

/-- InterviewSession.__init__ (main.py lines 100-105): empty transcript,
question_count 0, max_questions 15. -/
def InterviewSession.init (resume_text jd_text : String) : SessionState :=
  { resume_text := resume_text
    jd_text := jd_text
    transcript := []
    question_count := 0
    max_questions := 15 }

/-- What one get_next_response call returns and does: the returned pair
(text, finished flag), the session state after the call, and instrumentation
recording whether the LLM collaborator was invoked and with which prompt. -/
structure AdvanceResult where
  text : String
  finished : Bool
  state : SessionState
  llmCalled : Bool
  promptSent : Option String
deriving Repr, DecidableEq

/-- The fixed local termination message of the max-turns short-circuit
(main.py line 152). -/
def maxTurnsMessage : String :=
  "The interview is now over. I will generate your feedback."

/-- The termination instruction sent to the LLM on the time-up branch
(main.py line 147). -/
def timeUpPrompt : String :=
  "Time is up. Briefly thank the candidate and end the interview."

/-- The silence-nudge prompt (main.py line 155). -/
def silencePrompt (personaName : String) : String :=
  "The candidate is silent. As " ++ personaName ++ ", politely nudge them."

/-- The opening prompt of the very first turn (main.py line 158). -/
def startPrompt : String :=
  "Start the interview. Introduce yourself."

/-- The evaluate-the-answer prompt, an f-string embedding the literal user
input (main.py lines 160-163); Python interpolates None as the word None. -/
def answerPrompt (user_input : Option String) : String :=
  "\n                Candidate Answer: \"" ++ pyShowOpt user_input ++
    "\"\n                Instructions: Evaluate. Cross-question if needed. Otherwise ask next question. Keep it short.\n                "

/-- Prompt selection of the non-short-circuited branch
(main.py lines 154-163). -/
def buildPrompt (personaName : String) (s : SessionState) (user_input : Option String)
    (is_silence_trigger : Bool) : String :=
  if is_silence_trigger then silencePrompt personaName
  else if s.question_count == 0 && isFalsy user_input then startPrompt
  else answerPrompt user_input

/-- The user-side transcript entry (main.py line 170): the literal text, or
the silence sentinel when the input is falsy. -/
def userEntry (user_input : Option String) : String :=
  "User: " ++ (if isFalsy user_input then "[SILENCE]" else pyShowOpt user_input)

/-- The assistant-side transcript entry (main.py line 171). -/
def aiEntry (personaName ai_text : String) : String :=
  "AI (" ++ personaName ++ "): " ++ ai_text

/-- Termination detection by substring scan of the lowered reply
(main.py line 173). -/
def checkFinished (ai_text : String) : Bool :=
  pyContains ("interview is now over") (pyLower ai_text) ||
    pyContains ("time is up") (pyLower ai_text)

/-- InterviewSession.get_next_response (main.py lines 145-175).  The LLM
chat collaborator is the oracle llm : String → String giving the reply text
for each prompt; personaName is the persona name chosen at session start. -/
def get_next_response (llm : String → String) (personaName : String)
    (s : SessionState) (user_input : Option String)
    (is_silence_trigger : Bool) (is_time_up : Bool) : AdvanceResult :=
  if is_time_up then
    { text := clean_text_for_tts (llm timeUpPrompt)
      finished := true
      state := s
      llmCalled := true
      promptSent := some timeUpPrompt }
  else if s.question_count ≥ s.max_questions then
    { text := maxTurnsMessage
      finished := true
      state := s
      llmCalled := false
      promptSent := none }
  else
    let prompt := buildPrompt personaName s user_input is_silence_trigger
    let ai_text := clean_text_for_tts (llm prompt)
    { text := ai_text
      finished := checkFinished ai_text
      state :=
        { s with
          transcript := s.transcript ++ [userEntry user_input, aiEntry personaName ai_text]
          question_count := s.question_count + 1 }
      llmCalled := true
      promptSent := some prompt }

/-- The standard base64 alphabet used by base64.b64encode. -/
def base64Alphabet : List Char :=
  ("ABCDEFGHIJKLMNOPQRSTUVWXYZabcdefghijklmnopqrstuvwxyz0123456789+/").data

/-- The base64 digit for a 6-bit value. -/
def base64Char (n : Nat) : Char :=
  base64Alphabet.getD n 'A'

/-- base64.b64encode on a byte list (bytes as Nat below 256), with the
standard = padding. -/
def base64EncodeList : List Nat → List Char
  | [] => []
  | [a] => [base64Char (a / 4), base64Char (a % 4 * 16), '=', '=']
  | [a, b] => [base64Char (a / 4), base64Char (a % 4 * 16 + b / 16), base64Char (b % 16 * 4), '=']
  | a :: b :: c :: rest =>
    base64Char (a / 4) :: base64Char (a % 4 * 16 + b / 16) ::
      base64Char (b % 16 * 4 + c / 64) :: base64Char (c % 64) :: base64EncodeList rest

/-- base64.b64encode(data).decode returning a String. -/
def base64Encode (data : List Nat) : String :=
  String.mk (base64EncodeList data)

/-- Outcome of one TTS backend attempt as observed by generate_audio_stream:
the awaited call raises an exception, hits its asyncio timeout, or returns a
byte payload. -/
inductive Attempt where
  | throws : Attempt
  | timesOut : Attempt
  | ok : List Nat → Attempt
deriving Repr, DecidableEq

/-- An attempt that raised or timed out (both are caught by the except
clauses of main.py lines 219, 238 and 253). -/
def Attempt.failed : Attempt → Bool
  | .throws => true
  | .timesOut => true
  | .ok _ => false

/-- generate_audio_stream (main.py lines 194-255).  The backends are
oracles: edge text voice is the layer-1 EdgeTTS outcome, gtts text tld the
gTTS outcome for a given tld (layer 2 uses backup_tld, layer 3 the fixed
tld us).  Layer 1 returns its base64 payload only when non-empty; layer 2
and layer 3 return whatever payload they got; every caught failure falls
through; the final except returns the empty string. -/
def generate_audio_stream (text voice_id backup_tld : String)
    (edge : String → String → Attempt) (gtts : String → String → Attempt) : String :=
  let layer3 :=
    match gtts text ("us") with
    | .ok data => base64Encode data
    | _ => ""
  let layer2 :=
    match gtts text backup_tld with
    | .ok data => base64Encode data
    | _ => layer3
  match edge text voice_id with
  | .ok data => if data.length > 0 then base64Encode data else layer2
  | _ => layer2

/-- Outcome of opening the uploaded resume with pdfplumber: either the
extraction pipeline raises, or it yields per-page results of
page.extract_text() (none models a page whose extraction returns None). -/
inductive PdfResult where
  | throws : PdfResult
  | pages : List (Option String) → PdfResult
deriving Repr, DecidableEq

/-- Python `page.extract_text() or ""`: the page text when truthy, else the
empty string. -/
def pyOr : Option String → String
  | none => ""
  | some t => if t == "" then "" else t

/-- upload_context (main.py lines 263-279).  resume is the uploaded file
(with the extractor outcome) when present, resume_text the literal form
field.  The result is the created session (registered under a fresh id), or
Except.error when the handler raises and no session is created.  There is no
try/except around the pdfplumber block, so an extractor exception
propagates. -/
def upload_context (resume : Option PdfResult) (resume_text : Option String)
    (jd : String) : Except Unit SessionState :=
  match resume with
  | some .throws => .error ()
  | some (.pages ps) =>
    .ok (InterviewSession.init (ps.foldl (fun acc p => acc ++ pyOr p) ("")) jd)
  | none =>
    match resume_text with
    | some t => .ok (InterviewSession.init (if t == "" then "" else t) jd)
    | none => .ok (InterviewSession.init ("") jd)

/-- One transport event as seen by the websocket loop: a received JSON
message (its text field and type field), or the connection closing, which
surfaces as WebSocketDisconnect at the receive point. -/
inductive ClientEvent where
  | json : Option String → String → ClientEvent
  | disconnect : ClientEvent
deriving Repr, DecidableEq

/-- The registry deletion of main.py line 331:
`if session_id in sessions: del sessions[session_id]`. -/
def deleteSession (registry : List String) (sid : String) : List String :=
  registry.filter (fun x => x != sid)

/-- The while-True loop of websocket_endpoint (main.py lines 301-332),
returning the final session registry (modelled as the list of registered
session ids).  Each received json message drives one get_next_response call;
when it reports finished the feedback is sent and the loop breaks with the
registry untouched; a disconnect runs the except WebSocketDisconnect handler
which deletes the session.  An empty event list means the connection is
still open, blocked in receive_json. -/
def wsLoop (llm : String → String) (personaName : String)
    (registry : List String) (sid : String) :
    SessionState → List ClientEvent → List String
  | _, [] => registry
  | _, ClientEvent.disconnect :: _ => deleteSession registry sid
  | s, ClientEvent.json text msgType :: rest =>
    let r := get_next_response llm personaName s text
      (msgType == "silence_timeout") (msgType == "time_up")
    if r.finished then registry
    else wsLoop llm personaName registry sid r.state rest

/-- websocket_endpoint (main.py lines 281-332): reject unknown session ids,
send the initial question, then run the receive loop.  Only the registry
effects are modelled; the outbound audio and feedback messages do not touch
the registry. -/
def websocket_endpoint (llm : String → String) (personaName : String)
    (registry : List String) (sid : String) (s : SessionState)
    (events : List ClientEvent) : List String :=
  if sid ∈ registry then
    let r0 := get_next_response llm personaName s none false false
    wsLoop llm personaName registry sid r0.state events
  else registry

/-! ## Helper lemmas about pyStrip and clean_text_for_tts -/

theorem pyStrip_sublist (l : List Char) : (pyStrip l).Sublist l :=
  (List.rdropWhile_prefix _ _).sublist.trans (List.dropWhile_suffix _).sublist

theorem mem_of_mem_pyStrip {c : Char} {l : List Char} (h : c ∈ pyStrip l) : c ∈ l :=
  (pyStrip_sublist l).subset h

theorem pyStrip_head_not (l : List Char) :
    (pyStrip l).head?.all (fun c => !isPyWhitespace c) = true := by
  cases hps : pyStrip l with
  | nil => rfl
  | cons a ys =>
    obtain ⟨t, ht⟩ := List.rdropWhile_prefix isPyWhitespace (List.dropWhile isPyWhitespace l)
    have ht0 : pyStrip l ++ t = List.dropWhile isPyWhitespace l := ht
    rw [hps] at ht0
    have hne : List.dropWhile isPyWhitespace l ≠ [] := by
      rw [← ht0]; simp
    have hh : (List.dropWhile isPyWhitespace l).head? = some a := by
      rw [← ht0]; rfl
    have hnot := List.head_dropWhile_not isPyWhitespace l hne
    rw [List.head?_eq_head hne] at hh
    injection hh with hh2
    rw [hh2] at hnot
    simp [hnot]

theorem pyStrip_last_not (l : List Char) :
    (pyStrip l).getLast?.all (fun c => !isPyWhitespace c) = true := by
  by_cases h : pyStrip l = []
  · rw [h]; rfl
  · have hnot := List.rdropWhile_last_not isPyWhitespace (List.dropWhile isPyWhitespace l) h
    rw [List.getLast?_eq_getLast_of_ne_nil h]
    simp only [Option.all_some]
    simp only [pyStrip] at hnot ⊢
    simp [hnot]

theorem pyStrip_idempotent (l : List Char) : pyStrip (pyStrip l) = pyStrip l := by
  have h1 : List.dropWhile isPyWhitespace (pyStrip l) = pyStrip l := by
    cases hps : pyStrip l with
    | nil => rfl
    | cons a ys =>
      have hhd := pyStrip_head_not l
      rw [hps] at hhd
      simp only [List.head?_cons, Option.all_some, Bool.not_eq_true'] at hhd
      rw [List.dropWhile_cons, if_neg]
      simp [hhd]
  show List.rdropWhile isPyWhitespace (List.dropWhile isPyWhitespace (pyStrip l)) = pyStrip l
  rw [h1]
  show List.rdropWhile isPyWhitespace
      (List.rdropWhile isPyWhitespace (List.dropWhile isPyWhitespace l)) = pyStrip l
  rw [List.rdropWhile_idempotent]
  rfl

theorem clean_text_for_tts_data (x : String) :
    (clean_text_for_tts x).data
      = pyStrip ((x.data.filter (fun c => c != '*')).filter (fun c => c != '#')) := rfl

theorem mem_clean_star_free {x : String} {c : Char}
    (h : c ∈ (clean_text_for_tts x).data) : (c != '*') = true ∧ (c != '#') = true := by
  rw [clean_text_for_tts_data] at h
  have h2 := mem_of_mem_pyStrip h
  rw [List.mem_filter] at h2
  obtain ⟨h3, hc2⟩ := h2
  rw [List.mem_filter] at h3
  exact ⟨h3.2, hc2⟩

/-- Equation of the non-short-circuited branch of get_next_response. -/
theorem get_next_response_normal (llm : String → String) (p : String)
    (s : SessionState) (input : Option String) (sil : Bool)
    (h : ¬ s.question_count ≥ s.max_questions) :
    get_next_response llm p s input sil false =
      { text := clean_text_for_tts (llm (buildPrompt p s input sil))
        finished := checkFinished (clean_text_for_tts (llm (buildPrompt p s input sil)))
        state :=
          { s with
            transcript := s.transcript ++
              [userEntry input, aiEntry p (clean_text_for_tts (llm (buildPrompt p s input sil)))]
            question_count := s.question_count + 1 }
        llmCalled := true
        promptSent := some (buildPrompt p s input sil) } := by
  simp [get_next_response, h]

/-- Equation of the time-up branch of get_next_response. -/
theorem get_next_response_timeup (llm : String → String) (p : String)
    (s : SessionState) (input : Option String) (sil : Bool) :
    get_next_response llm p s input sil true =
      { text := clean_text_for_tts (llm timeUpPrompt)
        finished := true
        state := s
        llmCalled := true
        promptSent := some timeUpPrompt } := by
  simp [get_next_response]

/-- Equation of the max-turns short-circuit branch of get_next_response. -/
theorem get_next_response_maxed (llm : String → String) (p : String)
    (s : SessionState) (input : Option String) (sil : Bool)
    (h : s.question_count ≥ s.max_questions) :
    get_next_response llm p s input sil false =
      { text := maxTurnsMessage
        finished := true
        state := s
        llmCalled := false
        promptSent := none } := by
  simp [get_next_response, h]

/-- C7: clean_text_for_tts removes every asterisk and hash character, trims
both ends, does nothing else (its result is exactly the strip of the two
character filters), and is idempotent. -/
theorem clean_text_for_tts_correct (x : String) :
    clean_text_for_tts x
        = String.mk (pyStrip ((x.data.filter (fun c => c != '*')).filter (fun c => c != '#'))) ∧
    (clean_text_for_tts x).data.contains '*' = false ∧
    (clean_text_for_tts x).data.contains '#' = false ∧
    (clean_text_for_tts x).data.head?.all (fun c => !isPyWhitespace c) = true ∧
    (clean_text_for_tts x).data.getLast?.all (fun c => !isPyWhitespace c) = true ∧
    clean_text_for_tts (clean_text_for_tts x) = clean_text_for_tts x := by
  refine ⟨rfl, ?_, ?_, ?_, ?_, ?_⟩
  · simp only [List.contains, List.elem_eq_mem, decide_eq_false_iff_not]
    intro hmem
    have := (mem_clean_star_free hmem).1
    simp at this
  · simp only [List.contains, List.elem_eq_mem, decide_eq_false_iff_not]
    intro hmem
    have := (mem_clean_star_free hmem).2
    simp at this
  · rw [clean_text_for_tts_data]
    exact pyStrip_head_not _
  · rw [clean_text_for_tts_data]
    exact pyStrip_last_not _
  · apply String.ext
    rw [clean_text_for_tts_data (clean_text_for_tts x)]
    have hf : (clean_text_for_tts x).data.filter (fun c => c != '*')
        = (clean_text_for_tts x).data :=
      List.filter_eq_self.mpr (fun a ha => (mem_clean_star_free ha).1)
    rw [hf]
    have hg : (clean_text_for_tts x).data.filter (fun c => c != '#')
        = (clean_text_for_tts x).data :=
      List.filter_eq_self.mpr (fun a ha => (mem_clean_star_free ha).2)
    rw [hg]
    rw [clean_text_for_tts_data x]
    exact pyStrip_idempotent _

/-- C2: a time-up advance always returns finished=true, whatever the session
state, the input and the silence flag (so also at question_count 0 and at or
above the turn limit); the branch is taken first, it sends the termination
instruction to the LLM, and it returns the sanitized LLM reply. -/
theorem timeup_always_finishes (llm : String → String) (p : String)
    (s : SessionState) (input : Option String) (sil : Bool) :
    (get_next_response llm p s input sil true).finished = true ∧
    (get_next_response llm p s input sil true).llmCalled = true ∧
    (get_next_response llm p s input sil true).promptSent = some timeUpPrompt ∧
    (get_next_response llm p s input sil true).text
        = clean_text_for_tts (llm timeUpPrompt) := by
  rw [get_next_response_timeup]
  exact ⟨rfl, rfl, rfl, rfl⟩

/-- C1 counterexample: with question_count already at max_questions (15), a
TimeUp advance still invokes the LLM (the time-up branch is tested before
the max-turns guard) and returns the sanitized LLM reply, not the fixed
local termination message — refuting the claim that at turnCount = maxTurns
the next advance() call always answers locally without the LLM. -/
theorem c1_maxTurns_counterexample :
    (get_next_response (fun _ => "Goodbye and thank you for your time!") ("Elon Musk")
        { resume_text := "", jd_text := "", transcript := [], question_count := 15,
          max_questions := 15 } none false true).llmCalled = true ∧
    ((get_next_response (fun _ => "Goodbye and thank you for your time!") ("Elon Musk")
        { resume_text := "", jd_text := "", transcript := [], question_count := 15,
          max_questions := 15 } none false true).text == maxTurnsMessage) = false := by
  exact ⟨rfl, by decide⟩

/-- C1 (amended): question_count never exceeds max_questions — it is 0 at
session creation and every advance preserves the bound — and once
question_count = max_questions, the next advance that is not a TimeUp signal
returns the fixed local termination message with finished=true without
invoking the LLM. -/
theorem turn_limit_invariant (llm : String → String) (p : String)
    (s : SessionState) (input : Option String) (sil tu : Bool)
    (rt jd : String) :
    (InterviewSession.init rt jd).question_count ≤ (InterviewSession.init rt jd).max_questions ∧
    (s.question_count ≤ s.max_questions →
      (get_next_response llm p s input sil tu).state.question_count ≤ s.max_questions) ∧
    (s.question_count = s.max_questions →
      (get_next_response llm p s input sil false).text = maxTurnsMessage ∧
      (get_next_response llm p s input sil false).finished = true ∧
      (get_next_response llm p s input sil false).llmCalled = false) := by
  refine ⟨by simp [InterviewSession.init], ?_, ?_⟩
  · intro h
    cases tu with
    | true =>
      rw [get_next_response_timeup]
      exact h
    | false =>
      by_cases hq : s.question_count ≥ s.max_questions
      · rw [get_next_response_maxed llm p s input sil hq]
        exact h
      · rw [get_next_response_normal llm p s input sil hq]
        simp only []
        omega
  · intro h
    have hq : s.question_count ≥ s.max_questions := le_of_eq h.symm
    rw [get_next_response_maxed llm p s input sil hq]
    exact ⟨rfl, rfl, rfl⟩

/-- Witness for turn_limit_invariant at a concrete maxed-out session. -/
theorem turn_limit_invariant_witness :
    (let s : SessionState :=
      { resume_text := "", jd_text := "", transcript := [], question_count := 15,
        max_questions := 15 }
     s.question_count = s.max_questions ∧
      (get_next_response (fun _ => "ok") ("Donna Paulsen") s none false false).text
        = maxTurnsMessage) :=
  ⟨by decide,
    ((turn_limit_invariant (fun _ => "ok") ("Donna Paulsen")
      { resume_text := "", jd_text := "", transcript := [], question_count := 15,
        max_questions := 15 } none false false ("") ("")).2.2 (by decide)).1⟩

/-- C3 counterexample: a TimeUp advance on a fresh session (question_count 0,
far below the limit, so not stopped by the max-turns guard, and llmCalled
shows it reached the LLM) appends nothing to the transcript and does not
increment question_count — refuting the claim that every non-short-circuited
advance, including TimeUp, appends two entries and increments the counter. -/
theorem c3_timeup_counterexample :
    (get_next_response (fun _ => "Thanks, goodbye!") ("Shuri")
        (InterviewSession.init ("") ("")) (some ("my answer")) false true).state.transcript
      = [] ∧
    (get_next_response (fun _ => "Thanks, goodbye!") ("Shuri")
        (InterviewSession.init ("") ("")) (some ("my answer")) false true).state.question_count
      = 0 ∧
    (get_next_response (fun _ => "Thanks, goodbye!") ("Shuri")
        (InterviewSession.init ("") ("")) (some ("my answer")) false true).llmCalled = true :=
  ⟨rfl, rfl, rfl⟩

/-- C3 (amended): every advance that is neither a TimeUp signal nor stopped
by the max-turns guard appends exactly two transcript entries — one user
entry, one assistant entry — and increments question_count by exactly 1;
this holds for the silence and answer variants alike. -/
theorem advance_appends_two_entries (llm : String → String) (p : String)
    (s : SessionState) (input : Option String) (sil : Bool)
    (h : s.question_count < s.max_questions) :
    ∃ u a, (get_next_response llm p s input sil false).state.transcript
        = s.transcript ++ ["User: " ++ u, "AI (" ++ p ++ "): " ++ a] ∧
      (get_next_response llm p s input sil false).state.transcript.length
        = s.transcript.length + 2 ∧
      (get_next_response llm p s input sil false).state.question_count
        = s.question_count + 1 ∧
      (get_next_response llm p s input sil false).llmCalled = true := by
  have hq : ¬ s.question_count ≥ s.max_questions := by omega
  refine ⟨if isFalsy input then "[SILENCE]" else pyShowOpt input,
    clean_text_for_tts (llm (buildPrompt p s input sil)), ?_, ?_, ?_, ?_⟩ <;>
    rw [get_next_response_normal llm p s input sil hq] <;>
    simp [userEntry, aiEntry]

/-- Witness for advance_appends_two_entries at a concrete session. -/
theorem advance_appends_two_entries_witness :
    (InterviewSession.init ("") ("")).question_count
        < (InterviewSession.init ("") ("")).max_questions ∧
    ∃ u a, (get_next_response (fun _ => "First question?") ("Bill Gates")
        (InterviewSession.init ("") ("")) none false false).state.transcript
        = (InterviewSession.init ("") ("")).transcript ++
          ["User: " ++ u, "AI (" ++ ("Bill Gates") ++ "): " ++ a] ∧
      (get_next_response (fun _ => "First question?") ("Bill Gates")
        (InterviewSession.init ("") ("")) none false false).state.transcript.length
        = (InterviewSession.init ("") ("")).transcript.length + 2 ∧
      (get_next_response (fun _ => "First question?") ("Bill Gates")
        (InterviewSession.init ("") ("")) none false false).state.question_count
        = (InterviewSession.init ("") ("")).question_count + 1 ∧
      (get_next_response (fun _ => "First question?") ("Bill Gates")
        (InterviewSession.init ("") ("")) none false false).llmCalled = true :=
  ⟨by decide,
    advance_appends_two_entries (fun _ => "First question?") ("Bill Gates")
      (InterviewSession.init ("") ("")) none false (by decide)⟩

/-- C9: an advance that takes the time-up branch or the max-turns
short-circuit leaves the whole session state — in particular the transcript
and question_count — unchanged. -/
theorem shortcircuit_leaves_state_unchanged (llm : String → String) (p : String)
    (s : SessionState) (input : Option String) (sil tu : Bool)
    (h : tu = true ∨ s.max_questions ≤ s.question_count) :
    (get_next_response llm p s input sil tu).state = s := by
  cases tu with
  | true => rw [get_next_response_timeup]
  | false =>
    have hq : s.max_questions ≤ s.question_count := by
      rcases h with h | h
      · exact absurd h (by simp)
      · exact h
    rw [get_next_response_maxed llm p s input sil hq]

/-- Witness for shortcircuit_leaves_state_unchanged on the time-up branch. -/
theorem shortcircuit_leaves_state_unchanged_witness :
    ((true : Bool) = true ∨
        (InterviewSession.init ("") ("")).max_questions
          ≤ (InterviewSession.init ("") ("")).question_count) ∧
    (get_next_response (fun _ => "Bye!") ("Tony Stark")
        (InterviewSession.init ("") ("")) (some ("hello")) false true).state
      = InterviewSession.init ("") ("") :=
  ⟨Or.inl rfl,
    shortcircuit_leaves_state_unchanged (fun _ => "Bye!") ("Tony Stark")
      (InterviewSession.init ("") ("")) (some ("hello")) false true (Or.inl rfl)⟩

/-- C10: after the first turn, an answer advance whose text is empty or
absent records the silence sentinel in the user-side transcript entry,
exactly as a silence-signal advance from the same state does. -/
theorem empty_answer_records_silence (llm : String → String) (p : String)
    (s : SessionState) (input : Option String)
    (_h0 : 0 < s.question_count) (h1 : s.question_count < s.max_questions)
    (h2 : isFalsy input = true) :
    (∃ a, (get_next_response llm p s input false false).state.transcript
        = s.transcript ++ ["User: [SILENCE]", a]) ∧
    (∃ a, (get_next_response llm p s none true false).state.transcript
        = s.transcript ++ ["User: [SILENCE]", a]) := by
  have hq : ¬ s.question_count ≥ s.max_questions := by omega
  constructor
  · refine ⟨aiEntry p (clean_text_for_tts (llm (buildPrompt p s input false))), ?_⟩
    rw [get_next_response_normal llm p s input false hq]
    simp [userEntry, h2]
  · refine ⟨aiEntry p (clean_text_for_tts (llm (buildPrompt p s none true))), ?_⟩
    rw [get_next_response_normal llm p s none true hq]
    simp [userEntry, isFalsy]

/-- Witness for empty_answer_records_silence at a concrete mid-interview
session with an empty answer. -/
theorem empty_answer_records_silence_witness :
    (let s : SessionState :=
      { resume_text := "", jd_text := "", transcript := ["User: hi", "AI (X): Q1"],
        question_count := 3, max_questions := 15 }
     0 < s.question_count ∧ s.question_count < s.max_questions ∧
      isFalsy (some ("")) = true ∧
      (∃ a, (get_next_response (fun _ => "Please answer.") ("X") s (some ("")) false
            false).state.transcript
          = s.transcript ++ ["User: [SILENCE]", a])) :=
  ⟨by decide, by decide, by decide,
    (empty_answer_records_silence (fun _ => "Please answer.") ("X")
      { resume_text := "", jd_text := "", transcript := ["User: hi", "AI (X): Q1"],
        question_count := 3, max_questions := 15 } (some (""))
      (by decide) (by decide) (by decide)).1⟩

/-- C4: when all three synthesis layers fail (raise or time out), the chain
returns the empty payload instead of propagating an error; the embedding is
a total function, matching the try/except structure that catches every
backend exception. -/
theorem synthesize_all_fail_returns_empty (text voice_id backup_tld : String)
    (edge gtts : String → String → Attempt)
    (h1 : (edge text voice_id).failed = true)
    (h2 : (gtts text backup_tld).failed = true)
    (h3 : (gtts text ("us")).failed = true) :
    generate_audio_stream text voice_id backup_tld edge gtts = "" := by
  unfold generate_audio_stream
  cases hE : edge text voice_id <;> cases hG2 : gtts text backup_tld <;>
    cases hG3 : gtts text ("us") <;> simp_all [Attempt.failed]

/-- Witness for synthesize_all_fail_returns_empty with concrete backends
that always time out or raise. -/
theorem synthesize_all_fail_returns_empty_witness :
    ((fun (_ _ : String) => Attempt.timesOut) ("Hello") ("en-US-AriaNeural")).failed = true ∧
    generate_audio_stream ("Hello") ("en-US-AriaNeural") ("ca")
        (fun _ _ => Attempt.timesOut) (fun _ _ => Attempt.throws) = "" :=
  ⟨rfl,
    synthesize_all_fail_returns_empty ("Hello") ("en-US-AriaNeural") ("ca")
      (fun _ _ => Attempt.timesOut) (fun _ _ => Attempt.throws) rfl rfl rfl⟩

/-- C5 counterexample: with the primary backend timing out and the secondary
succeeding with an empty payload, the chain returns the base64 of the empty
payload (the empty string) without falling through to the tertiary backend,
whose output would have been QQ== — refuting the claim that an attempt
yielding empty output always falls through to the next layer. -/
theorem c5_empty_secondary_counterexample :
    generate_audio_stream ("Hello") ("en-GB-RyanNeural") ("co.uk")
        (fun _ _ => Attempt.timesOut)
        (fun _ tld => if tld == "us" then Attempt.ok [65] else Attempt.ok []) = "" ∧
    base64Encode [65] = "QQ==" ∧
    (("" : String) == "QQ==") = false := by
  exact ⟨rfl, rfl, by decide⟩

/-- C5 (amended): a layer-1 attempt that raises, times out or yields an
empty payload is a recoverable failure and falls through, as is a layer-2
attempt that raises or times out (but not one yielding an empty payload,
which is returned as-is); in particular, when the primary times out or
raises and the secondary fails, the result is exactly the tertiary backend
output. -/
theorem fallback_reaches_tertiary (text voice_id backup_tld : String)
    (edge gtts : String → String → Attempt) (d : List Nat)
    (h1 : (edge text voice_id).failed = true ∨ edge text voice_id = Attempt.ok [])
    (h2 : (gtts text backup_tld).failed = true)
    (h3 : gtts text ("us") = Attempt.ok d) :
    generate_audio_stream text voice_id backup_tld edge gtts = base64Encode d := by
  unfold generate_audio_stream
  cases hE : edge text voice_id <;> cases hG2 : gtts text backup_tld <;>
    simp_all [Attempt.failed]

/-- Witness for fallback_reaches_tertiary: primary times out, secondary
raises, tertiary returns the bytes of Man, so the chain returns TWFu. -/
theorem fallback_reaches_tertiary_witness :
    ((fun (_ _ : String) => Attempt.timesOut) ("Hello") ("en-NG-EzinneNeural")).failed = true ∧
    generate_audio_stream ("Hello") ("en-NG-EzinneNeural") ("co.za")
        (fun _ _ => Attempt.timesOut)
        (fun _ tld => if tld == "us" then Attempt.ok [77, 97, 110] else Attempt.throws)
      = base64Encode [77, 97, 110] :=
  ⟨rfl,
    fallback_reaches_tertiary ("Hello") ("en-NG-EzinneNeural") ("co.za")
      (fun _ _ => Attempt.timesOut)
      (fun _ tld => if tld == "us" then Attempt.ok [77, 97, 110] else Attempt.throws)
      [77, 97, 110] (Or.inl rfl) (by decide) (by decide)⟩

/-- Folding page texts that all degrade to the empty string leaves the
accumulator unchanged. -/
theorem foldl_pyOr_empty (ps : List (Option String)) (acc : String)
    (h : ∀ p ∈ ps, pyOr p = "") :
    ps.foldl (fun acc p => acc ++ pyOr p) acc = acc := by
  induction ps generalizing acc with
  | nil => rfl
  | cons q qs ih =>
    simp only [List.foldl_cons]
    rw [h q (by simp), show acc ++ ("") = acc from by simp]
    exact ih acc (fun p hp => h p (by simp [hp]))

/-- C6 counterexample: when the document extractor raises (a corrupt upload
makes pdfplumber throw), upload_context propagates the exception — the
request aborts with an error and no session is created — refuting the claim
that every extraction failure degrades to empty resume text with the
session still created. -/
theorem c6_extractor_exception_counterexample :
    upload_context (some PdfResult.throws) none ("Backend Engineer role")
      = Except.error () := rfl

/-- C6 (amended): pages whose text extraction returns no text (None or
empty) degrade to an empty resume text and the session is still created;
but an exception raised by the extraction pipeline propagates and aborts
the request with no session created. -/
theorem upload_degrades_pages_but_propagates_exceptions
    (ps : List (Option String)) (jd : String)
    (h : ∀ p ∈ ps, pyOr p = "") :
    upload_context (some (PdfResult.pages ps)) none jd
        = Except.ok (InterviewSession.init ("") jd) ∧
    upload_context (some PdfResult.throws) none jd = Except.error () := by
  constructor
  · show Except.ok (InterviewSession.init (List.foldl (fun acc p => acc ++ pyOr p) ("") ps) jd)
        = Except.ok (InterviewSession.init ("") jd)
    rw [foldl_pyOr_empty ps ("") h]
  · rfl

/-- Witness for upload_degrades_pages_but_propagates_exceptions: a document
whose two pages extract to None and the empty string still creates a
session with empty resume text. -/
theorem upload_degrades_pages_witness :
    (∀ p ∈ [none, some ("")], pyOr p = "") ∧
    upload_context (some (PdfResult.pages [none, some ("")])) none
        ("Backend Engineer role")
      = Except.ok (InterviewSession.init ("") ("Backend Engineer role")) :=
  ⟨by decide,
    (upload_degrades_pages_but_propagates_exceptions [none, some ("")]
      ("Backend Engineer role") (by decide)).1⟩

/-- Deleting a session id from the registry makes lookups of that id fail. -/
theorem contains_deleteSession (registry : List String) (sid : String) :
    (deleteSession registry sid).contains sid = false := by
  simp only [deleteSession, List.contains, List.elem_eq_mem, decide_eq_false_iff_not,
    List.mem_filter]
  rintro ⟨-, hne⟩
  simp at hne

/-- C8 counterexample: a session that reaches the terminal state (the LLM
reply contains the termination phrase, so finished=true and the feedback
message is delivered before the loop breaks) is NOT removed from the
registry — its id still maps to the session — refuting the claim that
terminal-state-plus-feedback removes the session. -/
theorem c8_terminal_keeps_session_counterexample :
    websocket_endpoint (fun _ => "The interview is now over.") ("X") [("s1")] ("s1")
        (InterviewSession.init ("") ("")) [ClientEvent.json (some ("hi")) ("answer")]
      = [("s1")] ∧
    (([("s1")] : List String).contains ("s1")) = true := by
  exact ⟨rfl, rfl⟩

/-- C8 (amended): the session is removed from the registry exactly when the
transport connection closes — a WebSocketDisconnect at any receive point
deletes the id, after which it no longer maps to a session — while reaching
a terminal state with feedback delivered breaks the loop leaving the
registry unchanged. -/
theorem disconnect_removes_session (llm : String → String) (p : String)
    (registry : List String) (sid : String) (s : SessionState)
    (rest rest2 : List ClientEvent) :
    wsLoop llm p registry sid s (ClientEvent.disconnect :: rest)
        = deleteSession registry sid ∧
    (wsLoop llm p registry sid s (ClientEvent.disconnect :: rest)).contains sid = false ∧
    (∀ text mtype,
      (get_next_response llm p s text (mtype == "silence_timeout")
          (mtype == "time_up")).finished = true →
      wsLoop llm p registry sid s (ClientEvent.json text mtype :: rest2) = registry) := by
  refine ⟨rfl, contains_deleteSession registry sid, ?_⟩
  intro text mtype hfin
  simp [wsLoop, hfin]

/-- Witness for disconnect_removes_session: with a concrete finishing LLM
reply the loop breaks with the registry unchanged, and a disconnect removes
the id from the registry. -/
theorem disconnect_removes_session_witness :
    ((get_next_response (fun _ => "The interview is now over.") ("X")
        (InterviewSession.init ("") ("")) (some ("hi"))
        (("answer" == "silence_timeout") : Bool)
        (("answer" == "time_up") : Bool)).finished = true) ∧
    wsLoop (fun _ => "The interview is now over.") ("X") [("s1")] ("s1")
        (InterviewSession.init ("") (""))
        [ClientEvent.json (some ("hi")) ("answer")] = [("s1")] ∧
    (wsLoop (fun _ => "The interview is now over.") ("X") [("s1")] ("s1")
        (InterviewSession.init ("") ("")) [ClientEvent.disconnect]).contains ("s1")
      = false :=
  ⟨by decide,
    (disconnect_removes_session (fun _ => "The interview is now over.") ("X")
      [("s1")] ("s1") (InterviewSession.init ("") ("")) [] []).2.2
      (some ("hi")) ("answer") (by decide),
    (disconnect_removes_session (fun _ => "The interview is now over.") ("X")
      [("s1")] ("s1") (InterviewSession.init ("") ("")) [] []).2.1⟩
